import Mathlib

/-!
Shallow embedding of the racing-portal server (src/server.js): the
race-analytics read model (stats joins over `racecard_entries`,
`race_combo_scores`, `race_analysis_scores`, `racecard_races`) and the
bulk-update transaction over `horse_profiles`.

Modelling conventions:
* SQL tables are Lean lists of records; a query is a pure function of the
  database value.  A join is the multiset of matching row pairs; `ORDER BY`
  is modelled with insertion sort (SQL leaves the order of ties
  unspecified, so any stable sort is a faithful model).
* String comparisons written with `COLLATE utf8mb4_unicode_ci` are modelled
  as case-insensitive equality with ASCII case folding; SQL `TRIM` removes
  leading and trailing spaces.
* DECIMAL statistic columns are modelled as integers (the claims only copy
  them and take maxima, which is scale-invariant).
* `NOW()` is modelled as a strictly increasing counter, one tick per
  executed statement.  Hence the `affectedRows` of
  `UPDATE ... , updated_at=NOW() WHERE horse_id=?` equals the number of
  matched rows: every matched row changes, because its `updated_at` is
  stamped with a fresh value.
* Template-literal interpolation of an integer (`${distance_m}`) is decimal
  rendering, embedded by `natToDec` below.
-/

namespace Racing

/-- ASCII lower-casing of one character, the ASCII fragment of what a
case-insensitive MySQL collation does. -/
def lowerCh (c : Char) : Char :=
  if 65 ≤ c.toNat && c.toNat ≤ 90 then Char.ofNat (c.toNat + 32) else c

/-- Case-insensitive string equality: the model of a comparison under the
case-insensitive collation `utf8mb4_unicode_ci` (ASCII folding). -/
def ciEq (a b : String) : Bool :=
  a.data.map lowerCh == b.data.map lowerCh

/-- SQL TRIM: drop leading and trailing space characters. -/
def sqlTrim (s : String) : String :=
  ((s.data.dropWhile (· == ' ')).reverse.dropWhile (· == ' ')).reverse.asString

/-- SQL LIKE matcher on character lists: `%` matches any sequence of
characters, `_` matches exactly one character, anything else matches
itself.  Structural recursion on an explicit fuel (each step shortens the
pattern or the string, so pattern length + string length + 1 always
suffices) so that concrete applications reduce in the kernel. -/
def likeMatchFuel : Nat → List Char → List Char → Bool
  | 0, _, _ => false
  | _ + 1, [], s => s.isEmpty
  | fuel + 1, p :: ps, s =>
    if p == '%' then
      likeMatchFuel fuel ps s ||
        (match s with
         | [] => false
         | _ :: s' => likeMatchFuel fuel (p :: ps) s')
    else
      match s with
      | [] => false
      | c :: s' => (p == '_' || p == c) && likeMatchFuel fuel ps s'

/-- SQL `s LIKE pat`. -/
def sqlLike (s : String) (pat : String) : Bool :=
  likeMatchFuel (pat.data.length + s.data.length + 1) pat.data s.data

/-- Little-endian decimal digits of a natural number, with explicit fuel so
that the definition is structural and reduces in the kernel. -/
def decDigitsAux : Nat → Nat → List Nat
  | 0, _ => []
  | _ + 1, 0 => []
  | fuel + 1, n + 1 => ((n + 1) % 10) :: decDigitsAux fuel ((n + 1) / 10)

def decDigits (n : Nat) : List Nat := decDigitsAux n n

def digitCh (d : Nat) : Char := Char.ofNat (48 + d)

/-- Decimal rendering of a natural number: the embedding of JavaScript's
number-to-string conversion of an integral value inside a template
literal. -/
def natToDec (n : Nat) : String :=
  if n = 0 then "0" else ((decDigits n).reverse.map digitCh).asString

/-! ### Data model: the tables read by the stats routes -/

/-- One row of `racecard_races` as read by the stats routes. -/
structure RaceRow where
  race_date : String
  venue_code : String
  race_no : Int
  distance_m : Nat
deriving DecidableEq

/-- One row of `racecard_entries`, restricted to the columns the stats
routes read. -/
structure Entry where
  race_date : String
  race_no : Int
  horse_no : Nat
  horse_id : String
  horse_name_zh : String
  draw : Int
  jockey_zh : String
  scratched : Option Int
deriving DecidableEq

/-- One row of `race_combo_scores` (a MetricScore). -/
structure ComboScore where
  race_date : String
  venue_code : String
  race_no : Int
  horse_id : String
  metric_code : String
  runs : Int
  win_cnt : Int
  second_cnt : Int
  third_cnt : Int
  fourth_cnt : Int
  win_pct : Int
  q_pct : Int
  place_pct : Int
  top4_pct : Int
  score_raw : Int
  score_norm : Int
  score_final : Int
deriving DecidableEq

/-- One row of `race_analysis_scores`, restricted to the columns the
`horse_stats` route reads. -/
structure AnalysisScore where
  race_date : String
  venue_code : String
  race_no : Int
  horse_id : String
  horse_runs : Int
  win : Int
  second_place : Int
  third_place : Int
  forth_place : Int
  horse_win_rate : Int
  horse_q_rate : Int
  horse_place_rate : Int
  horse_top4_rate : Int
  horse_score_raw : Int
  horse_score_norm : Int
  horse_score_final : Int
  draw_runs : Int
  draw_win : Int
  draw_second_place : Int
  draw_third_place : Int
  draw_forth_place : Int
  draw_win_rate : Int
  draw_q_rate : Int
  draw_place_rate : Int
  draw_top4_rate : Int
  draw_score_raw : Int
  draw_score_norm : Int
  draw_score_final : Int
deriving DecidableEq

/-- The database state visible to the stats routes. -/
structure DB where
  racecard_races : List RaceRow
  racecard_entries : List Entry
  race_combo_scores : List ComboScore
  race_analysis_scores : List AnalysisScore
deriving DecidableEq

/-- Embedding of the SQL condition `(e.scratched IS NULL OR e.scratched = 0)`. -/
def entryActive (e : Entry) : Bool := e.scratched == none || e.scratched == some 0

/-- Outcome of an HTTP handler, restricted to the response kinds the routes
produce: a 200 body, 400 missing parameters, 503 pool not ready, 500. -/
inductive ApiResult (α : Type) where
  | ok (body : α)
  | badRequest
  | notReady
  | serverError
deriving DecidableEq

/-! ### Metric codes (MetricCodeResolver) -/

/-- Embedding of the template literal HORSE_DIST interpolation of venue and
distance in the distance-stats route. -/
def horseDistMetricCode (venue : String) (distance_m : Nat) : String :=
  "HORSE_DIST_" ++ venue ++ "_" ++ natToDec distance_m

/-- Embedding of the template literal JOCKEY_DIST interpolation of venue and
distance in the jockey-distance route. -/
def jockeyDistMetricCode (venue : String) (distance_m : Nat) : String :=
  "JOCKEY_DIST_" ++ venue ++ "_" ++ natToDec distance_m

/-- Embedding of `SELECT distance_m FROM racecard_races WHERE race_date=?
AND venue_code=? AND race_no=? LIMIT 1` (RaceContextLookup). -/
def raceLookup (db : DB) (date venue : String) (raceNo : Int) : Option Nat :=
  ((db.racecard_races.filter fun r =>
      r.race_date == date && r.venue_code == venue && r.race_no == raceNo).head?).map
    (·.distance_m)

/-! ### GET /api/race/distance_stats (StatsJoinEngine, HORSE_DIST family) -/

/-- Output row of the distance-stats query. -/
structure DistItem where
  horse_no : Nat
  horse_name_zh : String
  dist_metric : String
  runs : Int
  win_cnt : Int
  second_cnt : Int
  third_cnt : Int
  fourth_cnt : Int
  win_pct : Int
  q_pct : Int
  place_pct : Int
  top4_pct : Int
  score_raw : Int
  score_norm : Int
  score_final : Int
deriving DecidableEq

/-- The SELECT list of the distance-stats query. -/
def distItemOf (rc : ComboScore) (e : Entry) : DistItem :=
  { horse_no := e.horse_no, horse_name_zh := e.horse_name_zh,
    dist_metric := rc.metric_code,
    runs := rc.runs, win_cnt := rc.win_cnt, second_cnt := rc.second_cnt,
    third_cnt := rc.third_cnt, fourth_cnt := rc.fourth_cnt,
    win_pct := rc.win_pct, q_pct := rc.q_pct, place_pct := rc.place_pct,
    top4_pct := rc.top4_pct, score_raw := rc.score_raw,
    score_norm := rc.score_norm, score_final := rc.score_final }

/-- JOIN condition plus WHERE clause of the distance-stats query: join on
(race_date, race_no) and collated horse_id, filter on the supplied race
identity, the exact resolved metric code, and non-scratched entries. -/
def distanceMatch (date venue : String) (raceNo : Int) (code : String)
    (rc : ComboScore) (e : Entry) : Bool :=
  rc.race_date == e.race_date && rc.race_no == e.race_no &&
  ciEq rc.horse_id e.horse_id &&
  rc.race_date == date && rc.venue_code == venue && rc.race_no == raceNo &&
  rc.metric_code == code && entryActive e

/-- The inner join of the distance-stats query, before ORDER BY. -/
def distanceJoin (db : DB) (date venue : String) (raceNo : Int) (code : String) :
    List DistItem :=
  db.race_combo_scores.flatMap fun rc =>
    db.racecard_entries.filterMap fun e =>
      if distanceMatch date venue raceNo code rc e then some (distItemOf rc e) else none

/-- The distance-stats item list: join then ORDER BY horse_no ASC. -/
def distanceItems (db : DB) (date venue : String) (raceNo : Int) (code : String) :
    List DistItem :=
  List.insertionSort (fun a b => a.horse_no ≤ b.horse_no)
    (distanceJoin db date venue raceNo code)

/-- Response body of /api/race/distance_stats: the no-race branch returns
`{distance_m: null, items: []}`; the found branch also reports the race
identity and the resolved metric code. -/
inductive DistanceBody where
  | noRace
  | found (race_date venue_code : String) (race_no : Int) (distance_m : Nat)
      (metric_code : String) (items : List DistItem)
deriving DecidableEq

/-- Handler of GET /api/race/distance_stats (after query-string validation
and `Number(race_no)` conversion at the HTTP boundary). -/
def distance_stats (poolReady : Bool) (db : DB) (date venue : String) (raceNo : Int) :
    ApiResult DistanceBody :=
  if !poolReady then .notReady
  else
    match raceLookup db date venue raceNo with
    | none => .ok .noRace
    | some dm =>
      .ok (.found date venue raceNo dm (horseDistMetricCode venue dm)
        (distanceItems db date venue raceNo (horseDistMetricCode venue dm)))

/-! ### GET /api/race/jockey_dist_stats (StatsJoinEngine, JOCKEY_DIST family) -/

/-- Output row of the jockey-distance query (one per GROUP BY key). -/
structure JockeyRow where
  jockey_zh : String
  venue : String
  distance_m : Nat
  runs : Int
  win_cnt : Int
  second_cnt : Int
  third_cnt : Int
  fourth_cnt : Int
  win_pct : Int
  q_pct : Int
  place_pct : Int
  top4_pct : Int
  score_raw : Int
  score_norm : Int
  score_final : Int
deriving DecidableEq

/-- JOIN condition plus WHERE clause of the jockey-distance query: the
horse_id comparison additionally TRIMs both sides. -/
def jockeyMatch (date venue : String) (raceNo : Int) (code : String)
    (rc : ComboScore) (e : Entry) : Bool :=
  rc.race_date == e.race_date && rc.race_no == e.race_no &&
  ciEq (sqlTrim rc.horse_id) (sqlTrim e.horse_id) &&
  rc.race_date == date && rc.venue_code == venue && rc.race_no == raceNo &&
  rc.metric_code == code && entryActive e

/-- The matching row pairs of the jockey-distance join, keyed by the columns
the grouping reads: `e.jockey_zh` and the score row. -/
def jockeyPairs (db : DB) (date venue : String) (raceNo : Int) (code : String) :
    List (String × ComboScore) :=
  db.race_combo_scores.flatMap fun rc =>
    db.racecard_entries.filterMap fun e =>
      if jockeyMatch date venue raceNo code rc e then some (e.jockey_zh, rc) else none

/-- SQL MAX over a (nonempty) group, as a fold; 0 is never reached because
every GROUP BY group is nonempty. -/
def listMax : List Int → Int
  | [] => 0
  | x :: xs => xs.foldl max x

/-- One aggregated output row for a GROUP BY key (jockey_zh, venue_code):
every numeric column is the MAX over the key's group. -/
def jdRow (dm : Nat) (pairs : List (String × ComboScore)) (key : String × String) :
    JockeyRow :=
  let g := (pairs.filter fun p => p.1 == key.1 && p.2.venue_code == key.2).map Prod.snd
  { jockey_zh := key.1, venue := key.2, distance_m := dm,
    runs := listMax (g.map (·.runs)),
    win_cnt := listMax (g.map (·.win_cnt)),
    second_cnt := listMax (g.map (·.second_cnt)),
    third_cnt := listMax (g.map (·.third_cnt)),
    fourth_cnt := listMax (g.map (·.fourth_cnt)),
    win_pct := listMax (g.map (·.win_pct)),
    q_pct := listMax (g.map (·.q_pct)),
    place_pct := listMax (g.map (·.place_pct)),
    top4_pct := listMax (g.map (·.top4_pct)),
    score_raw := listMax (g.map (·.score_raw)),
    score_norm := listMax (g.map (·.score_norm)),
    score_final := listMax (g.map (·.score_final)) }

/-- The jockey-distance result rows: GROUP BY (e.jockey_zh, rc.venue_code),
MAX aggregation, then ORDER BY e.jockey_zh. -/
def jockeyRows (db : DB) (date venue : String) (raceNo : Int) (dm : Nat) :
    List JockeyRow :=
  let code := jockeyDistMetricCode venue dm
  let pairs := jockeyPairs db date venue raceNo code
  let keys := (pairs.map fun p => (p.1, p.2.venue_code)).dedup
  List.insertionSort (fun a b => a.jockey_zh ≤ b.jockey_zh) (keys.map (jdRow dm pairs))

/-- Handler of GET /api/race/jockey_dist_stats.  This route has no explicit
pool guard: an unready pool raises and is reported as a 500. -/
def jockey_dist_stats (poolReady : Bool) (db : DB) (date venue : String) (raceNo : Int) :
    ApiResult (List JockeyRow) :=
  if !poolReady then .serverError
  else
    match raceLookup db date venue raceNo with
    | none => .ok []
    | some dm => .ok (jockeyRows db date venue raceNo dm)

/-! ### GET /api/race/weight_stats (StatsJoinEngine, WEIGHT family) -/

/-- Output row of the weight-stats query. -/
structure WeightItem where
  horse_no : Nat
  horse_name_zh : String
  weight_zone : String
  runs : Int
  win_cnt : Int
  second_cnt : Int
  third_cnt : Int
  fourth_cnt : Int
  win_pct : Int
  q_pct : Int
  place_pct : Int
  top4_pct : Int
  score_raw : Int
  score_norm : Int
  score_final : Int
deriving DecidableEq

def weightItemOf (rc : ComboScore) (e : Entry) : WeightItem :=
  { horse_no := e.horse_no, horse_name_zh := e.horse_name_zh,
    weight_zone := rc.metric_code,
    runs := rc.runs, win_cnt := rc.win_cnt, second_cnt := rc.second_cnt,
    third_cnt := rc.third_cnt, fourth_cnt := rc.fourth_cnt,
    win_pct := rc.win_pct, q_pct := rc.q_pct, place_pct := rc.place_pct,
    top4_pct := rc.top4_pct, score_raw := rc.score_raw,
    score_norm := rc.score_norm, score_final := rc.score_final }

/-- JOIN condition plus WHERE clause of the weight-stats query.  Note: this
query has no scratched filter in the source. -/
def weightMatch (date venue : String) (raceNo : Int) (rc : ComboScore) (e : Entry) :
    Bool :=
  rc.race_date == e.race_date && rc.race_no == e.race_no &&
  ciEq rc.horse_id e.horse_id &&
  rc.race_date == date && rc.venue_code == venue && rc.race_no == raceNo &&
  sqlLike rc.metric_code "WEIGHT_%"

def weightJoin (db : DB) (date venue : String) (raceNo : Int) : List WeightItem :=
  db.race_combo_scores.flatMap fun rc =>
    db.racecard_entries.filterMap fun e =>
      if weightMatch date venue raceNo rc e then some (weightItemOf rc e) else none

/-- Handler of GET /api/race/weight_stats: join then ORDER BY horse_no ASC,
metric_code ASC. -/
def weight_stats (poolReady : Bool) (db : DB) (date venue : String) (raceNo : Int) :
    ApiResult (List WeightItem) :=
  if !poolReady then .notReady
  else
    .ok (List.insertionSort
      (fun a b => a.horse_no < b.horse_no ∨
        (a.horse_no = b.horse_no ∧ a.weight_zone ≤ b.weight_zone))
      (weightJoin db date venue raceNo))

/-! ### GET /api/race/draw_stats (StatsJoinEngine, HORSE_DRAW family) -/

/-- Output row of the draw-stats query. -/
structure DrawItem where
  horse_no : Nat
  horse_name_zh : String
  draw : Int
  draw_band : String
  runs : Int
  win_cnt : Int
  second_cnt : Int
  third_cnt : Int
  fourth_cnt : Int
  win_pct : Int
  q_pct : Int
  place_pct : Int
  top4_pct : Int
  score_raw : Int
  score_norm : Int
  score_final : Int
deriving DecidableEq

def drawItemOf (rc : ComboScore) (e : Entry) : DrawItem :=
  { horse_no := e.horse_no, horse_name_zh := e.horse_name_zh, draw := e.draw,
    draw_band := rc.metric_code,
    runs := rc.runs, win_cnt := rc.win_cnt, second_cnt := rc.second_cnt,
    third_cnt := rc.third_cnt, fourth_cnt := rc.fourth_cnt,
    win_pct := rc.win_pct, q_pct := rc.q_pct, place_pct := rc.place_pct,
    top4_pct := rc.top4_pct, score_raw := rc.score_raw,
    score_norm := rc.score_norm, score_final := rc.score_final }

/-- JOIN condition plus WHERE clause of the draw-stats query: this one does
filter out scratched entries. -/
def drawMatch (date venue : String) (raceNo : Int) (rc : ComboScore) (e : Entry) :
    Bool :=
  rc.race_date == e.race_date && rc.race_no == e.race_no &&
  ciEq rc.horse_id e.horse_id &&
  rc.race_date == date && rc.venue_code == venue && rc.race_no == raceNo &&
  sqlLike rc.metric_code "HORSE_DRAW_%" && entryActive e

def drawJoin (db : DB) (date venue : String) (raceNo : Int) : List DrawItem :=
  db.race_combo_scores.flatMap fun rc =>
    db.racecard_entries.filterMap fun e =>
      if drawMatch date venue raceNo rc e then some (drawItemOf rc e) else none

/-- Handler of GET /api/race/draw_stats. -/
def draw_stats (poolReady : Bool) (db : DB) (date venue : String) (raceNo : Int) :
    ApiResult (List DrawItem) :=
  if !poolReady then .notReady
  else
    .ok (List.insertionSort (fun a b => a.horse_no ≤ b.horse_no)
      (drawJoin db date venue raceNo))

/-! ### GET /api/race/horse_stats (horse statistics family, with the
left-joined WEIGHT columns) -/

/-- Output row of the horse-stats query.  The `wt_*` columns come from the
LEFT JOIN on `race_combo_scores` and are NULL when no WEIGHT row matches. -/
structure HorseStatsRow where
  horse_no : Nat
  horse_name_zh : String
  gate_no : Int
  starts : Int
  win : Int
  second : Int
  third : Int
  fourth : Int
  win_pct : Int
  q_pct : Int
  place_pct : Int
  top4_pct : Int
  score : Int
  total_pct : Int
  green10 : Int
  draw_runs : Int
  draw_win : Int
  draw_second_place : Int
  draw_third_place : Int
  draw_forth_place : Int
  draw_win_pct : Int
  draw_q_pct : Int
  draw_place_pct : Int
  draw_top4_pct : Int
  draw_score : Int
  draw_total_pct : Int
  draw_green10 : Int
  weight_band : Option String
  wt_runs : Option Int
  wt_win : Option Int
  wt_second : Option Int
  wt_third : Option Int
  wt_fourth : Option Int
  wt_win_pct : Option Int
  wt_q_pct : Option Int
  wt_place_pct : Option Int
  wt_top4_pct : Option Int
  wt_score : Option Int
  wt_total_pct : Option Int
  wt_green10 : Option Int
deriving DecidableEq

/-- Inner-join condition plus WHERE clause of the horse-stats query between
`race_analysis_scores` and `racecard_entries`.  Note: no scratched filter
in the source. -/
def horseStatsMatch (date venue : String) (raceNo : Int) (ra : AnalysisScore)
    (e : Entry) : Bool :=
  ra.race_date == e.race_date && ra.race_no == e.race_no &&
  ciEq ra.horse_id e.horse_id &&
  ra.race_date == date && ra.venue_code == venue && ra.race_no == raceNo

/-- The LEFT JOIN condition of the horse-stats query: WEIGHT-prefixed combo
rows of the same (race, horse). -/
def weightLeftRows (db : DB) (ra : AnalysisScore) : List ComboScore :=
  db.race_combo_scores.filter fun w =>
    w.race_date == ra.race_date && w.venue_code == ra.venue_code &&
    w.race_no == ra.race_no && ciEq w.horse_id ra.horse_id &&
    sqlLike w.metric_code "WEIGHT%"

/-- The non-weight part of the SELECT list of the horse-stats query. -/
def horseStatsBase (ra : AnalysisScore) (e : Entry) (wband : Option String)
    (w? : Option ComboScore) : HorseStatsRow :=
  { horse_no := e.horse_no, horse_name_zh := e.horse_name_zh, gate_no := e.draw,
    starts := ra.horse_runs, win := ra.win, second := ra.second_place,
    third := ra.third_place, fourth := ra.forth_place,
    win_pct := ra.horse_win_rate, q_pct := ra.horse_q_rate,
    place_pct := ra.horse_place_rate, top4_pct := ra.horse_top4_rate,
    score := ra.horse_score_raw, total_pct := ra.horse_score_norm,
    green10 := ra.horse_score_final,
    draw_runs := ra.draw_runs, draw_win := ra.draw_win,
    draw_second_place := ra.draw_second_place,
    draw_third_place := ra.draw_third_place,
    draw_forth_place := ra.draw_forth_place,
    draw_win_pct := ra.draw_win_rate, draw_q_pct := ra.draw_q_rate,
    draw_place_pct := ra.draw_place_rate, draw_top4_pct := ra.draw_top4_rate,
    draw_score := ra.draw_score_raw, draw_total_pct := ra.draw_score_norm,
    draw_green10 := ra.draw_score_final,
    weight_band := wband,
    wt_runs := w?.map (·.runs), wt_win := w?.map (·.win_cnt),
    wt_second := w?.map (·.second_cnt), wt_third := w?.map (·.third_cnt),
    wt_fourth := w?.map (·.fourth_cnt), wt_win_pct := w?.map (·.win_pct),
    wt_q_pct := w?.map (·.q_pct), wt_place_pct := w?.map (·.place_pct),
    wt_top4_pct := w?.map (·.top4_pct), wt_score := w?.map (·.score_raw),
    wt_total_pct := w?.map (·.score_norm), wt_green10 := w?.map (·.score_final) }

/-- LEFT JOIN semantics for one matched (ra, e) pair: one row per matching
WEIGHT score, or a single all-NULL weight row when none matches. -/
def horseStatsRowsOf (ra : AnalysisScore) (e : Entry) (ws : List ComboScore) :
    List HorseStatsRow :=
  match ws with
  | [] => [horseStatsBase ra e none none]
  | _ :: _ => ws.map fun w => horseStatsBase ra e (some w.metric_code) (some w)

/-- The full horse-stats join before ORDER BY. -/
def horseStatsJoin (db : DB) (date venue : String) (raceNo : Int) :
    List HorseStatsRow :=
  db.race_analysis_scores.flatMap fun ra =>
    db.racecard_entries.flatMap fun e =>
      if horseStatsMatch date venue raceNo ra e then
        horseStatsRowsOf ra e (weightLeftRows db ra)
      else []

/-- Handler of GET /api/race/horse_stats. -/
def horse_stats (poolReady : Bool) (db : DB) (date venue : String) (raceNo : Int) :
    ApiResult (List HorseStatsRow) :=
  if !poolReady then .notReady
  else
    .ok (List.insertionSort (fun a b => a.horse_no ≤ b.horse_no)
      (horseStatsJoin db date venue raceNo))

/-! ### POST /api/horses/bulk-update (BulkMutationTransaction) -/

/-- JSON-ish values that can appear in a bulk-update edit field. -/
inductive JsVal where
  | undef
  | jnull
  | str (s : String)
  | int (n : Int)
  | bool (b : Bool)
deriving DecidableEq

def digitVal? (c : Char) : Option Nat :=
  if 48 ≤ c.toNat && c.toNat ≤ 57 then some (c.toNat - 48) else none

/-- Longest digit prefix of a character list, as digit values. -/
def digitsPre : List Char → List Nat
  | [] => []
  | c :: rest =>
    match digitVal? c with
    | some d => d :: digitsPre rest
    | none => []

def digitsToNat (l : List Nat) : Nat := l.foldl (fun acc d => acc * 10 + d) 0

def jsWhitespace (c : Char) : Bool :=
  c == ' ' || c == '\t' || c == '\n' || c == '\r'

def parseIntCore (neg : Bool) (l : List Char) : Option Int :=
  let ds := digitsPre l
  if ds.isEmpty then none
  else some (if neg then -(digitsToNat ds : Int) else (digitsToNat ds : Int))

/-- JavaScript `parseInt(s, 10)` on a string: skip leading whitespace, an
optional sign, then the longest digit prefix; NaN (modelled as `none`) when
no digit follows. -/
def parseIntStr (s : String) : Option Int :=
  match s.data.dropWhile jsWhitespace with
  | [] => none
  | c :: rest =>
    if c == '-' then parseIntCore true rest
    else if c == '+' then parseIntCore false rest
    else parseIntCore false (c :: rest)

/-- JavaScript `parseInt(v, 10)`; `none` models NaN.  A number is first
converted to its string, which for an integral value parses back to
itself; `undefined`, `null` and booleans stringify without a digit prefix. -/
def parseIntJs : JsVal → Option Int
  | .str s => parseIntStr s
  | .int n => some n
  | _ => none

/-- Embedding of `parseInt(it.current_rating, 10) || 0`: NaN is coerced to 0,
and a parsed 0 (falsy) is replaced by the literal 0. -/
def ratingOf (v : JsVal) : Int :=
  match parseIntJs v with
  | none => 0
  | some n => if n == 0 then 0 else n

/-- One element of `req.body.items`.  `owner`/`trainer_id` are `some` exactly
when the JSON value is a string: the route's `typeof` check conflates an
absent field with a present non-string one, and so does this model. -/
structure EditItem where
  horse_id : Option String
  owner : Option String
  trainer_id : Option String
  current_rating : JsVal
deriving DecidableEq

/-- The guard `it.current_rating !== undefined && it.current_rating !== null`. -/
def ratingPresent (v : JsVal) : Bool := !(v == JsVal.undef) && !(v == JsVal.jnull)

/-- Whether the edit contributes at least one whitelisted SET field. -/
def hasFields (it : EditItem) : Bool :=
  it.owner.isSome || it.trainer_id.isSome || ratingPresent it.current_rating

/-- JavaScript truthiness of `it.horse_id` for an absent-or-string value:
the empty string is falsy. -/
def horseIdOf (it : EditItem) : Option String :=
  match it.horse_id with
  | some s => if s == "" then none else some s
  | none => none

/-- The `if (!fields.length || !it.horse_id) continue` skip condition. -/
def skipEdit (it : EditItem) : Bool := !hasFields it || (horseIdOf it).isNone

/-- One row of `horse_profiles`, restricted to the columns the bulk update
touches.  `updated_at` holds the modelled NOW() tick. -/
structure HorseProfile where
  horse_id : String
  owner : String
  trainer_id : String
  current_rating : Int
  updated_at : Nat
deriving DecidableEq

/-- Apply the SET clause of one edit to a matched row: only the fields the
edit carries are overwritten, and `updated_at` is stamped with NOW(). -/
def applyEdit (it : EditItem) (now : Nat) (p : HorseProfile) : HorseProfile :=
  { p with
    owner := it.owner.getD p.owner
    trainer_id := it.trainer_id.getD p.trainer_id
    current_rating :=
      if ratingPresent it.current_rating then ratingOf it.current_rating
      else p.current_rating
    updated_at := now }

/-- Result of the bulk-update route: 200 with `updated`, 403, or 500. -/
inductive BulkResult where
  | ok (updated : Nat)
  | forbidden
  | serverError
deriving DecidableEq

/-- Observable outcome of one bulk-update invocation: the HTTP-level result,
the table contents visible afterwards, and whether a transaction was
opened. -/
structure BulkOut where
  result : BulkResult
  profiles : List HorseProfile
  txOpened : Bool
deriving DecidableEq

/-- The loop of the bulk-update transaction over the staged table state.
`faults k` says whether the k-th executed UPDATE raises a storage fault;
`none` signals the raised fault (the caller then rolls back).  `now` is the
NOW() counter and `upd` the running `updated` accumulator. -/
def runEdits (faults : Nat → Bool) :
    List EditItem → List HorseProfile → Nat → Nat → Nat →
      Option (List HorseProfile × Nat)
  | [], ps, _, _, upd => some (ps, upd)
  | it :: rest, ps, k, now, upd =>
    if skipEdit it then runEdits faults rest ps k now upd
    else if faults k then none
    else
      let hid := (horseIdOf it).getD ""
      let affected := ps.countP fun p => p.horse_id == hid
      let ps' := ps.map fun p => if p.horse_id == hid then applyEdit it now p else p
      runEdits faults rest ps' (k + 1) (now + 1) (upd + affected)

/-- Handler of POST /api/horses/bulk-update.  `username` models
`req.session?.user?.username`; a non-admin caller is rejected before any
connection or transaction is taken; an empty item list returns
`{updated: 0}` before the transaction; a storage fault inside the loop
rolls the whole transaction back and surfaces a 500. -/
def bulkUpdate (faults : Nat → Bool) (username : Option String)
    (items : List EditItem) (profiles : List HorseProfile) (now : Nat) : BulkOut :=
  if username != some "admin" then ⟨.forbidden, profiles, false⟩
  else if items.isEmpty then ⟨.ok 0, profiles, false⟩
  else
    match runEdits faults items profiles 0 now 0 with
    | some (ps, upd) => ⟨.ok upd, ps, true⟩
    | none => ⟨.serverError, profiles, true⟩

/-! ### Properties of decimal rendering -/

theorem decDigitsAux_eq (fuel : Nat) : ∀ n : Nat, n ≤ fuel → decDigitsAux fuel n = Nat.digits 10 n := by
  induction fuel with
  | zero =>
    intro n hn
    interval_cases n
    simp [decDigitsAux]
  | succ fuel ih =>
    intro n hn
    cases n with
    | zero => simp [decDigitsAux]
    | succ m =>
      have hdiv : (m + 1) / 10 ≤ fuel := by
        have h1 : (m + 1) / 10 < m + 1 := Nat.div_lt_self (Nat.succ_pos m) (by norm_num)
        omega
      rw [decDigitsAux, ih _ hdiv, Nat.digits_def' (by norm_num : (1 : Nat) < 10) (Nat.succ_pos m)]

theorem decDigits_eq (n : Nat) : decDigits n = Nat.digits 10 n :=
  decDigitsAux_eq n n le_rfl

theorem decDigits_lt (n : Nat) : ∀ d ∈ decDigits n, d < 10 := by
  rw [decDigits_eq]
  exact fun d hd => Nat.digits_lt_base (by norm_num) hd

theorem digitCh_inj {d e : Nat} (hd : d < 10) (he : e < 10) (h : digitCh d = digitCh e) :
    d = e := by
  interval_cases d <;> interval_cases e <;> revert h <;> decide

theorem map_digitCh_inj : ∀ {l1 l2 : List Nat}, (∀ d ∈ l1, d < 10) → (∀ d ∈ l2, d < 10) →
    l1.map digitCh = l2.map digitCh → l1 = l2
  | [], [], _, _, _ => rfl
  | [], _ :: _, _, _, h => by simp at h
  | _ :: _, [], _, _, h => by simp at h
  | a :: l1, b :: l2, h1, h2, h => by
    simp only [List.map_cons, List.cons.injEq] at h
    have hab : a = b :=
      digitCh_inj (h1 a (List.mem_cons_self a l1)) (h2 b (List.mem_cons_self b l2)) h.1
    have : l1 = l2 :=
      map_digitCh_inj (fun d hd => h1 d (List.mem_cons_of_mem a hd))
        (fun d hd => h2 d (List.mem_cons_of_mem b hd)) h.2
    rw [hab, this]

theorem natToDec_inj {m n : Nat} (h : natToDec m = natToDec n) : m = n := by
  by_cases hm : m = 0 <;> by_cases hn : n = 0
  · omega
  · exfalso
    rw [natToDec, if_pos hm, natToDec, if_neg hn] at h
    have h0 : ("0" : String) = (['0'] : List Char).asString := rfl
    rw [h0, List.asString_inj] at h
    have hrev : (decDigits n).reverse.map digitCh = List.map digitCh [0] := by
      rw [← h]
      decide
    have hlt : ∀ d ∈ (decDigits n).reverse, d < 10 := by
      intro d hd
      exact decDigits_lt n d (List.mem_reverse.mp hd)
    have hlist : (decDigits n).reverse = [0] := by
      apply map_digitCh_inj hlt _ hrev
      intro d hd
      simp at hd
      omega
    have hdig : Nat.digits 10 n = [0] := by
      have := congrArg List.reverse hlist
      simpa [decDigits_eq] using this
    have hlast := Nat.getLast_digit_ne_zero 10 hn
    rw [List.getLast_congr _ (show ([0] : List Nat) ≠ [] by simp) hdig] at hlast
    simp at hlast
  · exfalso
    rw [natToDec, if_neg hm, natToDec, if_pos hn] at h
    have h0 : ("0" : String) = (['0'] : List Char).asString := rfl
    rw [h0, List.asString_inj] at h
    have hrev : (decDigits m).reverse.map digitCh = List.map digitCh [0] := by
      rw [h]
      decide
    have hlt : ∀ d ∈ (decDigits m).reverse, d < 10 := by
      intro d hd
      exact decDigits_lt m d (List.mem_reverse.mp hd)
    have hlist : (decDigits m).reverse = [0] := by
      apply map_digitCh_inj hlt _ hrev
      intro d hd
      simp at hd
      omega
    have hdig : Nat.digits 10 m = [0] := by
      have := congrArg List.reverse hlist
      simpa [decDigits_eq] using this
    have hlast := Nat.getLast_digit_ne_zero 10 hm
    rw [List.getLast_congr _ (show ([0] : List Nat) ≠ [] by simp) hdig] at hlast
    simp at hlast
  · rw [natToDec, if_neg hm, natToDec, if_neg hn, List.asString_inj] at h
    have hm10 : ∀ d ∈ (decDigits m).reverse, d < 10 := fun d hd =>
      decDigits_lt m d (List.mem_reverse.mp hd)
    have hn10 : ∀ d ∈ (decDigits n).reverse, d < 10 := fun d hd =>
      decDigits_lt n d (List.mem_reverse.mp hd)
    have hrev := map_digitCh_inj hm10 hn10 h
    have : decDigits m = decDigits n := by
      have := congrArg List.reverse hrev
      simpa using this
    rw [decDigits_eq, decDigits_eq] at this
    exact Nat.digits_inj_iff.mp this

theorem horseDistMetricCode_inj {venue : String} {d d' : Nat}
    (h : horseDistMetricCode venue d = horseDistMetricCode venue d') : d = d' := by
  have h2 := congrArg String.data h
  simp only [horseDistMetricCode, String.data_append, List.append_assoc,
    List.append_right_inj] at h2
  exact natToDec_inj (String.ext h2)

theorem jockeyDistMetricCode_inj {venue : String} {d d' : Nat}
    (h : jockeyDistMetricCode venue d = jockeyDistMetricCode venue d') : d = d' := by
  have h2 := congrArg String.data h
  simp only [jockeyDistMetricCode, String.data_append, List.append_assoc,
    List.append_right_inj] at h2
  exact natToDec_inj (String.ext h2)

/-! ### Generic list lemmas used by the join proofs -/

theorem length_filterMap_if {α β : Type} (l : List α) (c : α → Bool) (f : α → β) :
    (l.filterMap fun a => if c a then some (f a) else none).length = l.countP c := by
  induction l with
  | nil => rfl
  | cons a l ih =>
    by_cases h : c a <;>
      simp [List.filterMap_cons, h, List.countP_cons, ih]

theorem countP_or_disjoint {α : Type} (l : List α) (p q : α → Bool)
    (h : ∀ a ∈ l, ¬(p a = true ∧ q a = true)) :
    l.countP (fun a => p a || q a) = l.countP p + l.countP q := by
  induction l with
  | nil => rfl
  | cons a l ih =>
    have ha := h a (List.mem_cons_self a l)
    have ih' := ih fun b hb => h b (List.mem_cons_of_mem a hb)
    by_cases hp : p a <;> by_cases hq : q a <;>
      simp_all [List.countP_cons] <;> omega

/-- ciEq is an equivalence on the folded character lists, so two score rows
matching the same entry have ciEq-equal horse ids. -/
theorem ciEq_trans_through {a b c : String} (hab : ciEq a c = true) (hbc : ciEq b c = true) :
    ciEq a b = true := by
  simp only [ciEq, beq_iff_eq] at *
  rw [hab, hbc]

/-- The uniqueness check used by the cardinality theorem: no two rows of the
list both satisfy `p` and carry ciEq-equal horse ids.  For the exact-code
distance family this is exactly the spec's five-part-key uniqueness
invariant restricted to the current race and code. -/
def noDupBy (p : ComboScore → Bool) : List ComboScore → Bool
  | [] => true
  | rc :: rest =>
    (!p rc || rest.all fun rc' => !p rc' || !ciEq rc.horse_id rc'.horse_id) &&
      noDupBy p rest

/-- WHERE-clause relevance of a combo row for the distance-stats query. -/
def distRelevant (date venue : String) (raceNo : Int) (code : String)
    (rc : ComboScore) : Bool :=
  rc.race_date == date && rc.venue_code == venue && rc.race_no == raceNo &&
    rc.metric_code == code

theorem distanceMatch_relevant {date venue : String} {raceNo : Int} {code : String}
    {rc : ComboScore} {e : Entry} (h : distanceMatch date venue raceNo code rc e = true) :
    distRelevant date venue raceNo code rc = true := by
  simp only [distanceMatch, Bool.and_eq_true] at h
  simp only [distRelevant, Bool.and_eq_true]
  exact ⟨⟨⟨h.1.1.1.1.2, h.1.1.1.2⟩, h.1.1.2⟩, h.1.2⟩

theorem distanceMatch_active {date venue : String} {raceNo : Int} {code : String}
    {rc : ComboScore} {e : Entry} (h : distanceMatch date venue raceNo code rc e = true) :
    entryActive e = true := by
  simp only [distanceMatch, Bool.and_eq_true] at h
  exact h.2

theorem distanceMatch_ci {date venue : String} {raceNo : Int} {code : String}
    {rc rc' : ComboScore} {e : Entry}
    (h : distanceMatch date venue raceNo code rc e = true)
    (h' : distanceMatch date venue raceNo code rc' e = true) :
    ciEq rc.horse_id rc'.horse_id = true := by
  simp only [distanceMatch, Bool.and_eq_true] at h h'
  exact ciEq_trans_through h.1.1.1.1.1.2 h'.1.1.1.1.1.2

/-- Core cardinality lemma for the distance-stats inner join: when no two
relevant score rows share a (ciEq) horse id, the join produces exactly one
row per non-scratched entry that has a matching score row. -/
theorem distanceJoin_length_core (date venue : String) (raceNo : Int) (code : String)
    (es : List Entry) :
    ∀ rcs : List ComboScore,
      noDupBy (distRelevant date venue raceNo code) rcs = true →
      (rcs.flatMap fun rc =>
          es.filterMap fun e =>
            if distanceMatch date venue raceNo code rc e then some (distItemOf rc e)
            else none).length =
        es.countP fun e =>
          entryActive e && rcs.any fun rc => distanceMatch date venue raceNo code rc e := by
  intro rcs
  induction rcs with
  | nil =>
    intro _
    simp
  | cons rc rest ih =>
    intro h
    simp only [noDupBy, Bool.and_eq_true] at h
    obtain ⟨hhead, htail⟩ := h
    have hstep :
        es.countP (fun e =>
            entryActive e && (rc :: rest).any fun rc' => distanceMatch date venue raceNo code rc' e) =
          es.countP (fun e => distanceMatch date venue raceNo code rc e) +
            es.countP (fun e =>
              entryActive e && rest.any fun rc' => distanceMatch date venue raceNo code rc' e) := by
      rw [List.countP_congr (q := fun e =>
          distanceMatch date venue raceNo code rc e ||
            (entryActive e && rest.any fun rc' => distanceMatch date venue raceNo code rc' e))]
      · apply countP_or_disjoint
        intro e _ ⟨hm, hrest⟩
        simp only [Bool.and_eq_true, List.any_eq_true] at hrest
        obtain ⟨_, rc', hrc', hm'⟩ := hrest
        have hci := distanceMatch_ci hm hm'
        have hp : distRelevant date venue raceNo code rc = true := distanceMatch_relevant hm
        have hp' : distRelevant date venue raceNo code rc' = true := distanceMatch_relevant hm'
        rw [hp] at hhead
        simp only [Bool.not_true, Bool.false_or, List.all_eq_true] at hhead
        have := hhead rc' hrc'
        rw [hp'] at this
        simp only [Bool.not_true, Bool.false_or, Bool.not_eq_true'] at this
        rw [hci] at this
        exact Bool.noConfusion this
      · intro e _
        constructor
        · intro he
          simp only [Bool.and_eq_true, List.any_cons, Bool.or_eq_true] at he
          rcases he with ⟨ha, hm | hrest⟩
          · simp [hm]
          · simp [ha, hrest]
        · intro he
          simp only [Bool.or_eq_true, Bool.and_eq_true, List.any_eq_true] at he
          simp only [Bool.and_eq_true, List.any_cons, Bool.or_eq_true, List.any_eq_true]
          rcases he with hm | ⟨ha, hrest⟩
          · exact ⟨distanceMatch_active hm, Or.inl hm⟩
          · exact ⟨ha, Or.inr hrest⟩
    rw [List.flatMap_cons, List.length_append, length_filterMap_if, hstep, ih htail]

/-! ### Scratched-entry invariance machinery -/

/-- The same database with the scratched entries deleted. -/
def scrubScratched (db : DB) : DB :=
  { db with racecard_entries := db.racecard_entries.filter entryActive }

theorem filterMap_filter_active {β : Type} (es : List Entry) (f : Entry → Option β)
    (h : ∀ e, entryActive e = false → f e = none) :
    (es.filter entryActive).filterMap f = es.filterMap f := by
  induction es with
  | nil => rfl
  | cons e es ih =>
    by_cases he : entryActive e
    · simp [List.filter_cons, he, List.filterMap_cons, ih]
    · have hfe := h e (by simpa using he)
      simp [List.filter_cons, he, List.filterMap_cons, hfe, ih]

theorem distanceJoin_scrub (db : DB) (date venue : String) (raceNo : Int) (code : String) :
    distanceJoin (scrubScratched db) date venue raceNo code =
      distanceJoin db date venue raceNo code := by
  have h : ∀ rc : ComboScore,
      ((db.racecard_entries.filter entryActive).filterMap fun e =>
          if distanceMatch date venue raceNo code rc e then some (distItemOf rc e)
          else none) =
        db.racecard_entries.filterMap fun e =>
          if distanceMatch date venue raceNo code rc e then some (distItemOf rc e)
          else none := by
    intro rc
    apply filterMap_filter_active
    intro e he
    simp [distanceMatch, he]
  unfold distanceJoin scrubScratched
  simp only [h]

theorem jockeyPairs_scrub (db : DB) (date venue : String) (raceNo : Int) (code : String) :
    jockeyPairs (scrubScratched db) date venue raceNo code =
      jockeyPairs db date venue raceNo code := by
  have h : ∀ rc : ComboScore,
      ((db.racecard_entries.filter entryActive).filterMap fun e =>
          if jockeyMatch date venue raceNo code rc e then some (e.jockey_zh, rc)
          else none) =
        db.racecard_entries.filterMap fun e =>
          if jockeyMatch date venue raceNo code rc e then some (e.jockey_zh, rc)
          else none := by
    intro rc
    apply filterMap_filter_active
    intro e he
    simp [jockeyMatch, he]
  unfold jockeyPairs scrubScratched
  simp only [h]

theorem drawJoin_scrub (db : DB) (date venue : String) (raceNo : Int) :
    drawJoin (scrubScratched db) date venue raceNo = drawJoin db date venue raceNo := by
  have h : ∀ rc : ComboScore,
      ((db.racecard_entries.filter entryActive).filterMap fun e =>
          if drawMatch date venue raceNo rc e then some (drawItemOf rc e) else none) =
        db.racecard_entries.filterMap fun e =>
          if drawMatch date venue raceNo rc e then some (drawItemOf rc e) else none := by
    intro rc
    apply filterMap_filter_active
    intro e he
    simp [drawMatch, he]
  unfold drawJoin scrubScratched
  simp only [h]

theorem raceLookup_scrub (db : DB) (date venue : String) (raceNo : Int) :
    raceLookup (scrubScratched db) date venue raceNo = raceLookup db date venue raceNo := rfl

/-! ### Bulk-update machinery -/

/-- The updated-rows count the route should report: the sum, over the edits
that are not skipped, of the number of profile rows whose horse_id matches
the edit's. -/
def expectedUpdated (items : List EditItem) (ps : List HorseProfile) : Nat :=
  (items.map fun it =>
    if skipEdit it then 0
    else ps.countP fun p => p.horse_id == (horseIdOf it).getD "").sum

theorem applyEdit_horse_id (it : EditItem) (now : Nat) (p : HorseProfile) :
    (applyEdit it now p).horse_id = p.horse_id := rfl

theorem countP_horse_id_update (ps : List HorseProfile) (it : EditItem) (now : Nat)
    (hid h : String) :
    ((ps.map fun p => if p.horse_id == hid then applyEdit it now p else p).countP
        fun p => p.horse_id == h) =
      ps.countP fun p => p.horse_id == h := by
  induction ps with
  | nil => rfl
  | cons p ps ih =>
    have hhd : ((if p.horse_id == hid then applyEdit it now p else p).horse_id == h) =
        (p.horse_id == h) := by
      by_cases hp : p.horse_id == hid <;> simp [hp, applyEdit_horse_id]
    simp only [List.map_cons, List.countP_cons, ih, hhd]

theorem expectedUpdated_update (items : List EditItem) (ps : List HorseProfile)
    (it : EditItem) (now : Nat) (hid : String) :
    expectedUpdated items (ps.map fun p => if p.horse_id == hid then applyEdit it now p else p) =
      expectedUpdated items ps := by
  unfold expectedUpdated
  congr 1
  apply List.map_congr_left
  intro it' _
  by_cases hs : skipEdit it'
  · simp only [if_pos hs]
  · rw [if_neg hs, if_neg hs]
    exact countP_horse_id_update ps it now hid _

theorem runEdits_noFault (items : List EditItem) :
    ∀ (ps : List HorseProfile) (k now upd : Nat),
      (runEdits (fun _ => false) items ps k now upd).map (fun r => r.2) =
        some (upd + expectedUpdated items ps) := by
  induction items with
  | nil =>
    intro ps k now upd
    simp [runEdits, expectedUpdated]
  | cons it rest ih =>
    intro ps k now upd
    by_cases hs : skipEdit it
    · rw [runEdits, if_pos hs, ih]
      simp [expectedUpdated, hs]
    · rw [runEdits, if_neg hs]
      simp only [Bool.false_eq_true, if_false]
      rw [ih, expectedUpdated_update]
      congr 1
      simp only [expectedUpdated, List.map_cons, List.sum_cons, if_neg hs]
      omega

theorem runEdits_all_skip (faults : Nat → Bool) (items : List EditItem)
    (hskip : ∀ it ∈ items, skipEdit it = true) :
    ∀ (ps : List HorseProfile) (k now upd : Nat),
      runEdits faults items ps k now upd = some (ps, upd) := by
  induction items with
  | nil => intro ps k now upd; rfl
  | cons it rest ih =>
    intro ps k now upd
    rw [runEdits, if_pos (hskip it (List.mem_cons_self it rest))]
    exact ih (fun it' h => hskip it' (List.mem_cons_of_mem it h)) ps k now upd

/-! ### Sample data used by witnesses and counterexamples -/

/-- A profile row used by the bulk-update witnesses. -/
def profileH1 : HorseProfile := ⟨"H1", "O", "T", 10, 0⟩

/-- Five valid edits; the bulk-update fault witness raises on the third. -/
def fiveEdits : List EditItem :=
  [⟨some "H1", some "A", none, .undef⟩, ⟨some "H1", some "B", none, .undef⟩,
   ⟨some "H1", some "C", none, .undef⟩, ⟨some "H1", some "D", none, .undef⟩,
   ⟨some "H1", some "E", none, .undef⟩]

/-! ### Claim theorems -/

/-- C3: if a storage fault is raised while executing any single edit of a
bulk-update batch (the route answers 500), the whole transaction is rolled
back: the visible profile table equals its pre-batch state. -/
theorem C3_bulk_update_fault_rolls_back (faults : Nat → Bool) (username : Option String)
    (items : List EditItem) (ps : List HorseProfile) (now : Nat)
    (h : (bulkUpdate faults username items ps now).result = .serverError) :
    (bulkUpdate faults username items ps now).profiles = ps := by
  unfold bulkUpdate at h ⊢
  by_cases hu : username != some "admin"
  · rw [if_pos hu] at h
    exact absurd h (by simp)
  · rw [if_neg hu] at h ⊢
    by_cases he : items.isEmpty
    · rw [if_pos he] at h
      exact absurd h (by simp)
    · rw [if_neg he] at h ⊢
      rcases hr : runEdits faults items ps 0 now 0 with _ | ⟨ps', upd⟩
      · simp [hr]
      · rw [hr] at h
        exact absurd h (by simp)

/-- C3 witness: a fault on the third executed edit of a five-edit batch
yields a 500 and leaves the table in its pre-batch state. -/
theorem C3_bulk_update_fault_rolls_back_witness :
    (bulkUpdate (fun k => k == 2) (some "admin") fiveEdits [profileH1] 0).result =
        .serverError ∧
      (bulkUpdate (fun k => k == 2) (some "admin") fiveEdits [profileH1] 0).profiles =
        [profileH1] :=
  ⟨by decide,
   C3_bulk_update_fault_rolls_back (fun k => k == 2) (some "admin") fiveEdits [profileH1] 0
     (by decide)⟩

/-- C4: with no storage fault, the reported count equals the sum over the
non-skipped edits of the number of matched (hence changed) rows: an edit
whose horse_id matches nothing contributes 0 without aborting, and two
edits targeting the same horse each count one update, the later edit's
value being the one persisted (concrete second conjunct). -/
theorem C4_bulk_update_updated_count :
    (∀ (items : List EditItem) (ps : List HorseProfile) (now : Nat),
        (bulkUpdate (fun _ => false) (some "admin") items ps now).result =
          .ok (expectedUpdated items ps)) ∧
      bulkUpdate (fun _ => false) (some "admin")
          [⟨some "H1", some "A", none, .undef⟩, ⟨some "H1", some "B", none, .undef⟩]
          [profileH1] 0 =
        ⟨.ok 2, [⟨"H1", "B", "T", 10, 1⟩], true⟩ := by
  constructor
  · intro items ps now
    unfold bulkUpdate
    rw [if_neg (by simp)]
    cases items with
    | nil => simp [expectedUpdated]
    | cons it rest =>
      rw [if_neg (by simp)]
      rcases hr : runEdits (fun _ => false) (it :: rest) ps 0 now 0 with _ | ⟨ps', upd⟩
      · have := runEdits_noFault (it :: rest) ps 0 now 0
        rw [hr] at this
        exact absurd this (by simp)
      · have := runEdits_noFault (it :: rest) ps 0 now 0
        rw [hr] at this
        have hupd : upd = expectedUpdated (it :: rest) ps := by simpa using this
        simp [hupd]
  · decide

/-- C8: a caller whose session username is not admin is rejected with 403
before any transaction is opened, and the table is untouched. -/
theorem C8_bulk_update_permission_denied (faults : Nat → Bool) (username : Option String)
    (items : List EditItem) (ps : List HorseProfile) (now : Nat)
    (h : username ≠ some "admin") :
    bulkUpdate faults username items ps now = ⟨.forbidden, ps, false⟩ := by
  unfold bulkUpdate
  rw [if_pos (by simpa using h)]

/-- C8 witness: an anonymous session (no username) is rejected. -/
theorem C8_bulk_update_permission_denied_witness :
    bulkUpdate (fun _ => false) none fiveEdits [profileH1] 3 =
      ⟨.forbidden, [profileH1], false⟩ :=
  C8_bulk_update_permission_denied (fun _ => false) none fiveEdits [profileH1] 3 (by decide)

/-- C9: a current_rating value that is neither undefined nor null is always
written, as `parseInt(value, 10) || 0`: the field is included in the SET
list, the persisted value is `ratingOf v`, NaN (and a parsed 0) coerces to
0, and the edit is never rejected; concretely, an edit whose rating is the
non-numeric string abc is applied and persists rating 0. -/
theorem C9_bulk_update_rating_coercion :
    (∀ v : JsVal, v ≠ .undef → v ≠ .jnull →
        ratingPresent v = true ∧
          (∀ (it : EditItem) (now : Nat) (p : HorseProfile), it.current_rating = v →
            (applyEdit it now p).current_rating = ratingOf v) ∧
          ((parseIntJs v = none ∨ parseIntJs v = some 0) → ratingOf v = 0) ∧
          (∀ (hid : String) (own tr : Option String), hid ≠ "" →
            skipEdit ⟨some hid, own, tr, v⟩ = false)) ∧
      bulkUpdate (fun _ => false) (some "admin") [⟨some "H1", none, none, .str "abc"⟩]
          [⟨"H1", "O", "T", 10, 5⟩] 7 =
        ⟨.ok 1, [⟨"H1", "O", "T", 0, 7⟩], true⟩ := by
  constructor
  · intro v hu hn
    have hp : ratingPresent v = true := by
      cases v <;> simp_all [ratingPresent]
    refine ⟨hp, ?_, ?_, ?_⟩
    · intro it now p hit
      simp [applyEdit, hit, hp]
    · intro hcase
      rcases hcase with h0 | h0 <;> simp [ratingOf, h0]
    · intro hid own tr hhid
      have : horseIdOf ⟨some hid, own, tr, v⟩ = some hid := by
        simp [horseIdOf, hhid]
      simp [skipEdit, hasFields, hp, this]
  · decide

/-- C9 witness: the strings 7a and abc are neither undefined nor null, the
rating field is included, and the non-numeric string coerces to 0. -/
theorem C9_bulk_update_rating_coercion_witness :
    ratingPresent (.str "7a") = true ∧ ratingOf (.str "abc") = 0 :=
  ⟨(C9_bulk_update_rating_coercion.1 (.str "7a") (by decide) (by decide)).1,
   (C9_bulk_update_rating_coercion.1 (.str "abc") (by decide) (by decide)).2.2.1
     (Or.inl (by decide))⟩

/-- C10: an empty edit list returns updated 0 with no transaction opened;
a batch in which every edit is skipped returns updated 0, opens (and
commits) a transaction, and leaves every profile unchanged. -/
theorem C10_bulk_update_noop :
    (∀ (faults : Nat → Bool) (ps : List HorseProfile) (now : Nat),
        bulkUpdate faults (some "admin") [] ps now = ⟨.ok 0, ps, false⟩) ∧
      ∀ (faults : Nat → Bool) (items : List EditItem) (ps : List HorseProfile) (now : Nat),
        items ≠ [] → (∀ it ∈ items, skipEdit it = true) →
        bulkUpdate faults (some "admin") items ps now = ⟨.ok 0, ps, true⟩ := by
  constructor
  · intro faults ps now
    rfl
  · intro faults items ps now hne hskip
    unfold bulkUpdate
    rw [if_neg (by simp), if_neg (by simpa using hne), runEdits_all_skip faults items hskip]

/-- C10 witness: a single edit with no horse_id is skipped; the batch
returns updated 0 and changes nothing. -/
theorem C10_bulk_update_noop_witness :
    bulkUpdate (fun _ => false) (some "admin") [⟨none, some "A", none, .undef⟩]
        [profileH1] 0 =
      ⟨.ok 0, [profileH1], true⟩ :=
  C10_bulk_update_noop.2 (fun _ => false) [⟨none, some "A", none, .undef⟩] [profileH1] 0
    (by decide) (by decide)

/-- C5: the HORSE_DIST and JOCKEY_DIST code builders are deterministic
functions of (venue, distance); distinct distances give distinct codes;
and a score row carrying the code of one distance fails the exact-code
match of any other distance, for both families. -/
theorem C5_metric_code_deterministic_injective :
    (∀ (venue : String) (dm : Nat),
        horseDistMetricCode venue dm = horseDistMetricCode venue dm ∧
          jockeyDistMetricCode venue dm = jockeyDistMetricCode venue dm) ∧
      (∀ (venue : String) (d d' : Nat), d ≠ d' →
        horseDistMetricCode venue d ≠ horseDistMetricCode venue d' ∧
          jockeyDistMetricCode venue d ≠ jockeyDistMetricCode venue d') ∧
      (∀ (date venue : String) (raceNo : Int) (d d' : Nat) (rc : ComboScore) (e : Entry),
        d ≠ d' → rc.metric_code = horseDistMetricCode venue d →
        distanceMatch date venue raceNo (horseDistMetricCode venue d') rc e = false) ∧
      ∀ (date venue : String) (raceNo : Int) (d d' : Nat) (rc : ComboScore) (e : Entry),
        d ≠ d' → rc.metric_code = jockeyDistMetricCode venue d →
        jockeyMatch date venue raceNo (jockeyDistMetricCode venue d') rc e = false := by
  refine ⟨fun venue dm => ⟨rfl, rfl⟩, ?_, ?_, ?_⟩
  · intro venue d d' hd
    exact ⟨fun hc => hd (horseDistMetricCode_inj hc),
      fun hc => hd (jockeyDistMetricCode_inj hc)⟩
  · intro date venue raceNo d d' rc e hd hmc
    have hne : rc.metric_code ≠ horseDistMetricCode venue d' := by
      rw [hmc]
      exact fun hc => hd (horseDistMetricCode_inj hc)
    have hbeq : (rc.metric_code == horseDistMetricCode venue d') = false :=
      beq_eq_false_iff_ne.mpr hne
    simp [distanceMatch, hbeq]
  · intro date venue raceNo d d' rc e hd hmc
    have hne : rc.metric_code ≠ jockeyDistMetricCode venue d' := by
      rw [hmc]
      exact fun hc => hd (jockeyDistMetricCode_inj hc)
    have hbeq : (rc.metric_code == jockeyDistMetricCode venue d') = false :=
      beq_eq_false_iff_ne.mpr hne
    simp [jockeyMatch, hbeq]

/-- C5 witness: concretely, 1200 versus 1201 metres at the same venue give
different codes for both families. -/
theorem C5_metric_code_witness :
    horseDistMetricCode "HV" 1200 ≠ horseDistMetricCode "HV" 1201 ∧
      jockeyDistMetricCode "ST" 1650 ≠ jockeyDistMetricCode "ST" 1651 :=
  ⟨(C5_metric_code_deterministic_injective.2.1 "HV" 1200 1201 (by decide)).1,
   (C5_metric_code_deterministic_injective.2.1 "ST" 1650 1651 (by decide)).2⟩

/-- C7: when no racecard_races row matches the supplied race identity, the
distance-stats route answers 200 with the null-distance empty body and the
jockey-distance route answers 200 with an empty list; neither signals a
fault. -/
theorem C7_race_not_found_empty_result (db : DB) (date venue : String) (raceNo : Int)
    (h : raceLookup db date venue raceNo = none) :
    distance_stats true db date venue raceNo = .ok .noRace ∧
      jockey_dist_stats true db date venue raceNo = .ok [] := by
  constructor
  · unfold distance_stats
    rw [h]
    rfl
  · unfold jockey_dist_stats
    rw [h]
    rfl

/-- Database whose only race card row is for a different race than the one
queried; entry and score rows are present but no race context matches. -/
def dbOtherRace : DB :=
  { racecard_races := [⟨"2025-11-26", "ST", 2, 1000⟩],
    racecard_entries := [⟨"2025-11-26", 1, 3, "HK001", "馬一", 3, "潘頓", none⟩],
    race_combo_scores :=
      [⟨"2025-11-26", "ST", 1, "HK001", "HORSE_DIST_ST_1200", 5, 1, 1, 1, 1, 20, 40, 60, 80, 7, 70, 9⟩],
    race_analysis_scores := [] }

/-- C7 witness: querying race 1 against a card that only has race 2 yields
the empty 200 bodies. -/
theorem C7_race_not_found_empty_result_witness :
    distance_stats true dbOtherRace "2025-11-26" "ST" 1 = .ok .noRace ∧
      jockey_dist_stats true dbOtherRace "2025-11-26" "ST" 1 = .ok [] :=
  C7_race_not_found_empty_result dbOtherRace "2025-11-26" "ST" 1 (by decide)

/-! ### C1: cardinality of the stats join -/

/-- A race card with one non-scratched entry whose horse has no MetricScore
row at all. -/
def dbNoScore : DB :=
  { racecard_races := [⟨"2025-11-26", "HV", 1, 1200⟩],
    racecard_entries := [⟨"2025-11-26", 1, 3, "HK001", "馬一", 3, "潘頓", none⟩],
    race_combo_scores := [],
    race_analysis_scores := [] }

/-- A race with one non-scratched entry whose horse has an analysis row and
two WEIGHT combo rows (one per sub-band). -/
def dbTwoWeight : DB :=
  { racecard_races := [⟨"2025-11-26", "ST", 1, 1200⟩],
    racecard_entries := [⟨"2025-11-26", 1, 3, "HK001", "馬一", 3, "潘頓", none⟩],
    race_combo_scores :=
      [⟨"2025-11-26", "ST", 1, "HK001", "WEIGHT_113_127", 6, 2, 1, 1, 1, 33, 50, 66, 83, 6, 60, 8⟩,
       ⟨"2025-11-26", "ST", 1, "HK001", "WEIGHT_128_133", 4, 1, 1, 0, 0, 25, 50, 50, 50, 5, 50, 7⟩],
    race_analysis_scores :=
      [⟨"2025-11-26", "ST", 1, "HK001", 12, 3, 2, 1, 1, 25, 41, 50, 58, 8, 80, 9,
        9, 2, 1, 1, 1, 22, 33, 44, 55, 6, 60, 7⟩] }

/-- C1 counterexample: the joins are inner joins, not left joins.  A
non-scratched entry whose horse has no MetricScore row is dropped from the
distance-stats output (0 rows instead of the claimed exactly 1), and the
horse-stats join returns two rows for a single non-scratched entry (one
per WEIGHT band), more than the number of non-scratched entries. -/
theorem C1_inner_join_counterexample :
    distance_stats true dbNoScore "2025-11-26" "HV" 1 =
        .ok (.found "2025-11-26" "HV" 1 1200 "HORSE_DIST_HV_1200" []) ∧
      dbNoScore.racecard_entries.countP entryActive = 1 ∧
      (horseStatsJoin dbTwoWeight "2025-11-26" "ST" 1).length = 2 ∧
      dbTwoWeight.racecard_entries.countP entryActive = 1 := by
  decide

/-- C1 (amended): the distance-stats join emits exactly one record per
non-scratched entry whose horse has a matching MetricScore row — entries
with no matching row are omitted, not emitted with null statistics — and
never more records than there are non-scratched entries, provided no two
relevant score rows share a (ciEq) horse id, which is the five-part-key
uniqueness invariant restricted to this race and code. -/
theorem C1_distance_join_cardinality (db : DB) (date venue : String) (raceNo : Int)
    (code : String)
    (h : noDupBy (distRelevant date venue raceNo code) db.race_combo_scores = true) :
    (distanceItems db date venue raceNo code).length =
        (db.racecard_entries.countP fun e =>
          entryActive e &&
            db.race_combo_scores.any fun rc => distanceMatch date venue raceNo code rc e) ∧
      (distanceItems db date venue raceNo code).length ≤
        db.racecard_entries.countP entryActive := by
  have h1 : (distanceItems db date venue raceNo code).length =
      (distanceJoin db date venue raceNo code).length :=
    List.length_insertionSort _ _
  have h2 := distanceJoin_length_core date venue raceNo code db.racecard_entries
    db.race_combo_scores h
  constructor
  · rw [h1]
    exact h2
  · rw [h1]
    unfold distanceJoin
    rw [h2]
    apply List.countP_mono_left
    intro e _ he
    exact (Bool.and_eq_true _ _ |>.mp he).1

/-- Data for the C1 witness: one matched active entry, one scoreless active
entry, one scratched entry with a score, plus an off-code score row. -/
def dbDistanceMix : DB :=
  { racecard_races := [⟨"2025-11-26", "HV", 1, 1200⟩],
    racecard_entries :=
      [⟨"2025-11-26", 1, 1, "HK001", "馬一", 2, "甲", none⟩,
       ⟨"2025-11-26", 1, 2, "HK002", "馬二", 5, "乙", some 0⟩,
       ⟨"2025-11-26", 1, 3, "HK003", "馬三", 7, "丙", some 1⟩],
    race_combo_scores :=
      [⟨"2025-11-26", "HV", 1, "HK001", "HORSE_DIST_HV_1200", 5, 1, 1, 1, 1, 20, 40, 60, 80, 7, 70, 9⟩,
       ⟨"2025-11-26", "HV", 1, "HK003", "HORSE_DIST_HV_1200", 6, 2, 1, 1, 1, 33, 50, 66, 83, 6, 60, 8⟩,
       ⟨"2025-11-26", "HV", 1, "HK001", "HORSE_DIST_HV_1400", 4, 1, 1, 0, 0, 25, 50, 50, 50, 5, 50, 7⟩],
    race_analysis_scores := [] }

/-- C1 witness: on `dbDistanceMix` the uniqueness side condition holds and
the amended cardinality theorem applies. -/
theorem C1_distance_join_cardinality_witness :
    noDupBy (distRelevant "2025-11-26" "HV" 1 (horseDistMetricCode "HV" 1200))
        dbDistanceMix.race_combo_scores = true ∧
      ((distanceItems dbDistanceMix "2025-11-26" "HV" 1
            (horseDistMetricCode "HV" 1200)).length =
          (dbDistanceMix.racecard_entries.countP fun e =>
            entryActive e &&
              dbDistanceMix.race_combo_scores.any fun rc =>
                distanceMatch "2025-11-26" "HV" 1 (horseDistMetricCode "HV" 1200) rc e) ∧
        (distanceItems dbDistanceMix "2025-11-26" "HV" 1
            (horseDistMetricCode "HV" 1200)).length ≤
          dbDistanceMix.racecard_entries.countP entryActive) :=
  ⟨by decide,
   C1_distance_join_cardinality dbDistanceMix "2025-11-26" "HV" 1
     (horseDistMetricCode "HV" 1200) (by decide)⟩

/-! ### C2: scratched entries in the join outputs -/

/-- A race whose only entry is scratched, with a WEIGHT combo row and an
analysis row for its horse. -/
def dbScratched : DB :=
  { racecard_races := [⟨"2025-11-26", "ST", 1, 1200⟩],
    racecard_entries := [⟨"2025-11-26", 1, 4, "HK009", "馬九", 4, "丁", some 1⟩],
    race_combo_scores :=
      [⟨"2025-11-26", "ST", 1, "HK009", "WEIGHT_113_127", 6, 2, 1, 1, 1, 33, 50, 66, 83, 6, 60, 8⟩],
    race_analysis_scores :=
      [⟨"2025-11-26", "ST", 1, "HK009", 12, 3, 2, 1, 1, 25, 41, 50, 58, 8, 80, 9,
        9, 2, 1, 1, 1, 22, 33, 44, 55, 6, 60, 7⟩] }

/-- C2 counterexample: the weight-stats query and the horse-stats join carry
no scratched filter, so a scratched entry does contribute output rows even
though the race has zero non-scratched entries. -/
theorem C2_scratched_leaks_counterexample :
    weight_stats true dbScratched "2025-11-26" "ST" 1 =
        .ok [⟨4, "馬九", "WEIGHT_113_127", 6, 2, 1, 1, 1, 33, 50, 66, 83, 6, 60, 8⟩] ∧
      (horseStatsJoin dbScratched "2025-11-26" "ST" 1).length = 1 ∧
      dbScratched.racecard_entries.countP entryActive = 0 := by
  decide

theorem jockeyRows_scrub (db : DB) (date venue : String) (raceNo : Int) (dm : Nat) :
    jockeyRows (scrubScratched db) date venue raceNo dm =
      jockeyRows db date venue raceNo dm := by
  unfold jockeyRows
  simp only [jockeyPairs_scrub]

/-- C2 (amended): the draw-band, horse-distance and jockey-distance outputs
are unchanged when every scratched entry is deleted from the database —
scratched entries contribute nothing to those three families.  (Per the
counterexample, the horse-statistics and weight-band queries have no such
guarantee.) -/
theorem C2_scratched_excluded_filtered_families (poolReady : Bool) (db : DB)
    (date venue : String) (raceNo : Int) :
    distance_stats poolReady (scrubScratched db) date venue raceNo =
        distance_stats poolReady db date venue raceNo ∧
      draw_stats poolReady (scrubScratched db) date venue raceNo =
        draw_stats poolReady db date venue raceNo ∧
      jockey_dist_stats poolReady (scrubScratched db) date venue raceNo =
        jockey_dist_stats poolReady db date venue raceNo := by
  refine ⟨?_, ?_, ?_⟩
  · unfold distance_stats
    rw [raceLookup_scrub]
    simp only [distanceItems, distanceJoin_scrub]
  · unfold draw_stats
    rw [drawJoin_scrub]
  · unfold jockey_dist_stats
    rw [raceLookup_scrub]
    simp only [jockeyRows_scrub]

/-! ### C6: one aggregated row per jockey -/

theorem jockeyPairs_venue (db : DB) (date venue : String) (raceNo : Int) (code : String) :
    ∀ p ∈ jockeyPairs db date venue raceNo code, p.2.venue_code = venue := by
  intro p hp
  unfold jockeyPairs at hp
  rw [List.mem_flatMap] at hp
  obtain ⟨rc, _, hmem⟩ := hp
  rw [List.mem_filterMap] at hmem
  obtain ⟨e, _, hfe⟩ := hmem
  by_cases hm : jockeyMatch date venue raceNo code rc e
  · rw [if_pos hm] at hfe
    cases hfe
    simp only [jockeyMatch, Bool.and_eq_true] at hm
    exact beq_iff_eq.mp hm.1.1.1.2
  · rw [if_neg hm] at hfe
    cases hfe

theorem nodup_map_fst_of_snd_const {α β : Type} (l : List (α × β)) (c : β)
    (hconst : ∀ x ∈ l, x.2 = c) (hn : l.Nodup) : (l.map Prod.fst).Nodup := by
  induction l with
  | nil => simp
  | cons x l ih =>
    simp only [List.map_cons, List.nodup_cons] at hn ⊢
    obtain ⟨hx, hl⟩ := hn
    refine ⟨?_, ih (fun y hy => hconst y (List.mem_cons_of_mem x hy)) hl⟩
    intro hmem
    rw [List.mem_map] at hmem
    obtain ⟨y, hy, hxy⟩ := hmem
    apply hx
    have h2 : x.2 = y.2 := by
      rw [hconst x (List.mem_cons_self x l), hconst y (List.mem_cons_of_mem x hy)]
    have hxe : x = y := by
      cases x
      cases y
      simp_all
    rw [hxe]
    exact hy

/-- Structure of the jockey-distance output: the jockey names are pairwise
distinct, a jockey appears exactly when some matched (jockey, score) pair
carries it, and every output row is the MAX-aggregation `jdRow` of its own
(jockey, venue) group. -/
theorem jockeyRows_spec (db : DB) (date venue : String) (raceNo : Int) (dm : Nat) :
    ((jockeyRows db date venue raceNo dm).map (·.jockey_zh)).Nodup ∧
      (∀ j : String,
        j ∈ (jockeyRows db date venue raceNo dm).map (·.jockey_zh) ↔
          ∃ rc, (j, rc) ∈ jockeyPairs db date venue raceNo (jockeyDistMetricCode venue dm)) ∧
      ∀ row ∈ jockeyRows db date venue raceNo dm,
        row =
          jdRow dm (jockeyPairs db date venue raceNo (jockeyDistMetricCode venue dm))
            (row.jockey_zh, row.venue) := by
  have hrows : jockeyRows db date venue raceNo dm =
      List.insertionSort (fun a b => a.jockey_zh ≤ b.jockey_zh)
        ((((jockeyPairs db date venue raceNo (jockeyDistMetricCode venue dm)).map
            fun p => (p.1, p.2.venue_code)).dedup).map
          (jdRow dm (jockeyPairs db date venue raceNo (jockeyDistMetricCode venue dm)))) :=
    rfl
  have hperm : (jockeyRows db date venue raceNo dm).Perm
      ((((jockeyPairs db date venue raceNo (jockeyDistMetricCode venue dm)).map
          fun p => (p.1, p.2.venue_code)).dedup).map
        (jdRow dm (jockeyPairs db date venue raceNo (jockeyDistMetricCode venue dm)))) := by
    rw [hrows]
    exact List.perm_insertionSort _ _
  have hpm := hperm.map (·.jockey_zh)
  have hmapmap :
      (((((jockeyPairs db date venue raceNo (jockeyDistMetricCode venue dm)).map
          fun p => (p.1, p.2.venue_code)).dedup).map
        (jdRow dm (jockeyPairs db date venue raceNo (jockeyDistMetricCode venue dm)))).map
          (·.jockey_zh)) =
        ((((jockeyPairs db date venue raceNo (jockeyDistMetricCode venue dm)).map
          fun p => (p.1, p.2.venue_code)).dedup).map Prod.fst) := by
    rw [List.map_map]
    exact List.map_congr_left fun k _ => rfl
  rw [hmapmap] at hpm
  have hsnd : ∀ k ∈ (((jockeyPairs db date venue raceNo (jockeyDistMetricCode venue dm)).map
      fun p => (p.1, p.2.venue_code)).dedup), k.2 = venue := by
    intro k hk
    rw [List.mem_dedup, List.mem_map] at hk
    obtain ⟨p, hp, hpk⟩ := hk
    rw [← hpk]
    exact jockeyPairs_venue db date venue raceNo (jockeyDistMetricCode venue dm) p hp
  have hfst : ((((jockeyPairs db date venue raceNo (jockeyDistMetricCode venue dm)).map
      fun p => (p.1, p.2.venue_code)).dedup).map Prod.fst).Nodup :=
    nodup_map_fst_of_snd_const _ venue hsnd (List.nodup_dedup _)
  refine ⟨hpm.nodup_iff.mpr hfst, ?_, ?_⟩
  · intro j
    rw [hpm.mem_iff]
    constructor
    · intro hj
      rw [List.mem_map] at hj
      obtain ⟨k, hk, hk1⟩ := hj
      rw [List.mem_dedup, List.mem_map] at hk
      obtain ⟨p, hp, hpk⟩ := hk
      refine ⟨p.2, ?_⟩
      have hp1 : p.1 = j := by
        rw [← hk1, ← hpk]
      have : (j, p.2) = p := by
        cases p
        simp_all
      rw [this]
      exact hp
    · intro hj
      obtain ⟨rc, hrc⟩ := hj
      rw [List.mem_map]
      refine ⟨(j, rc.venue_code), ?_, rfl⟩
      rw [List.mem_dedup, List.mem_map]
      exact ⟨(j, rc), hrc, rfl⟩
  · intro row hrow
    rw [hrows, List.mem_insertionSort, List.mem_map] at hrow
    obtain ⟨k, hk, hkrow⟩ := hrow
    rw [← hkrow]
    rfl

/-- A race at ST over 1650m where one jockey rides two horses whose
JOCKEY_DIST score rows are identical. -/
def dbJockeyTwo : DB :=
  { racecard_races := [⟨"2025-11-26", "ST", 1, 1650⟩],
    racecard_entries :=
      [⟨"2025-11-26", 1, 3, "HK001", "馬一", 3, "潘頓", none⟩,
       ⟨"2025-11-26", 1, 5, "HK002", "馬二", 5, "潘頓", some 0⟩],
    race_combo_scores :=
      [⟨"2025-11-26", "ST", 1, "HK001", "JOCKEY_DIST_ST_1650", 8, 2, 1, 1, 1, 25, 38, 50, 63, 7, 70, 9⟩,
       ⟨"2025-11-26", "ST", 1, "HK002", "JOCKEY_DIST_ST_1650", 8, 2, 1, 1, 1, 25, 38, 50, 63, 7, 70, 9⟩],
    race_analysis_scores := [] }

/-- C6: the jockey-distance output has exactly one row per distinct jockey
among the matched non-scratched entries, each row being the per-column MAX
over that jockey's group; concretely, a jockey riding two horses with
identical score rows collapses to a single row equal to that score. -/
theorem C6_jockey_dist_one_row_per_jockey :
    (∀ (db : DB) (date venue : String) (raceNo : Int) (dm : Nat),
        ((jockeyRows db date venue raceNo dm).map (·.jockey_zh)).Nodup ∧
          (∀ j : String,
            j ∈ (jockeyRows db date venue raceNo dm).map (·.jockey_zh) ↔
              ∃ rc, (j, rc) ∈ jockeyPairs db date venue raceNo
                (jockeyDistMetricCode venue dm)) ∧
          ∀ row ∈ jockeyRows db date venue raceNo dm,
            row =
              jdRow dm (jockeyPairs db date venue raceNo (jockeyDistMetricCode venue dm))
                (row.jockey_zh, row.venue)) ∧
      jockey_dist_stats true dbJockeyTwo "2025-11-26" "ST" 1 =
        .ok [⟨"潘頓", "ST", 1650, 8, 2, 1, 1, 1, 25, 38, 50, 63, 7, 70, 9⟩] :=
  ⟨fun db date venue raceNo dm => jockeyRows_spec db date venue raceNo dm, by decide⟩

/-- C6 witness: the single output row of the two-horse scenario is indeed
the MAX-aggregation of its jockey's group. -/
theorem C6_jockey_dist_one_row_per_jockey_witness :
    (⟨"潘頓", "ST", 1650, 8, 2, 1, 1, 1, 25, 38, 50, 63, 7, 70, 9⟩ : JockeyRow) =
      jdRow 1650 (jockeyPairs dbJockeyTwo "2025-11-26" "ST" 1
        (jockeyDistMetricCode "ST" 1650)) ("潘頓", "ST") :=
  (C6_jockey_dist_one_row_per_jockey.1 dbJockeyTwo "2025-11-26" "ST" 1 1650).2.2
    ⟨"潘頓", "ST", 1650, 8, 2, 1, 1, 1, 25, 38, 50, 63, 7, 70, 9⟩ (by decide)

end Racing
